import Mathlib

/-!
# Verification of the image upload pipeline
  (`src/packages/plugin-image-generation/src/utils/supabase.ts`)

Shallow embedding of the upload-with-recovery pipeline: local validation
(`validateImage`), the retry executor (`retryOperation`), and the upload
pipeline (`uploadGeneratedImage`).  Filesystem and backend behaviour are
parameters (arbitrary per-call results), effects are recorded in an explicit
event trace, and the single tracking record's persisted state is threaded
through the run.
-/

namespace Upload

/-! ## Strings: `split(sep).pop()` and `toLowerCase()` from the source

The source splits on single-character separators (`'.'` for the extension,
`'/'` for the filename).  `splitOnChar` mirrors JavaScript
`String.prototype.split` with a one-character separator: it always returns a
non-empty list, and `pop()` is the last element. -/

def splitOnChar (sep : Char) : List Char → List (List Char)
  | [] => [[]]
  | c :: cs =>
    match splitOnChar sep cs with
    | [] => [[]]
    | g :: gs => if c = sep then [] :: g :: gs else (c :: g) :: gs

/-- `filepath.split(sep).pop()` — the last component (possibly `""`). -/
def lastComp (sep : Char) (s : String) : String :=
  String.mk ((splitOnChar sep s.toList).getLastD [])

/-- `filepath.split('.').pop()?.toLowerCase()` — the source's extension
computation (ASCII lowering; the source's `toLowerCase` agrees on ASCII). -/
def extOf (filepath : String) : String :=
  String.mk (((splitOnChar '.' filepath.toList).getLastD []).map Char.toLower)

/-! ## Filesystem model

Each primitive the source touches is an arbitrary per-path behaviour; `error`
models the corresponding `fs` promise rejecting (caught by the source's
`try`/`catch`), carrying the thrown error's message. -/

structure FS where
  existsSync : String → Bool
  statSize : String → Except String Nat
  read4 : String → Except String (List Nat)
  readFile : String → Except String (List Nat)

/-- The 4-byte buffer after `fd.read(buffer, 0, 4, 0)`:
`Buffer.alloc(4)` is zero-filled and the read overwrites at most the first
`min 4 (bytes available)` positions. -/
def buf4 (bs : List Nat) : List Nat :=
  bs.take 4 ++ List.replicate (4 - min bs.length 4) 0

/-- Magic-number check (source lines 70–77): the hex dump of the 4-byte
buffer starts with `89504e47` (PNG), `ffd8` (JPEG) or `47494638` (GIF). -/
def checkMagic (buf : List Nat) : Bool :=
  match buf with
  | [a, b, c, d] =>
    (a = 0x89 && b = 0x50 && c = 0x4e && d = 0x47) ||
    (a = 0xff && b = 0xd8) ||
    (a = 0x47 && b = 0x49 && c = 0x46 && d = 0x38)
  | _ => false

/-- `validateImage` (source lines 26–85).  Total: the surrounding
`try`/`catch` collapses every internal error to `false`. -/
def validateImage (fs : FS) (filepath : String) : Bool :=
  if ! fs.existsSync filepath then false
  else
    match fs.statSize filepath with
    | .error _ => false
    | .ok size =>
      if size = 0 then false
      else if size > 5 * 1024 * 1024 then false
      else
        let ext := extOf filepath
        -- `!ext` (empty string is falsy) `|| !['png','jpg','jpeg','gif'].includes(ext)`
        if ext = "" ∨ ext ∉ ["png", "jpg", "jpeg", "gif"] then false
        else
          match fs.read4 filepath with
          | .error _ => false
          | .ok bs => checkMagic (buf4 bs)

/-! ## Retry executor (`retryOperation`, source lines 87–108)

The operation is modelled by its per-attempt outcomes `op : Nat → Except E T`
(attempt `k`, 0-indexed, corresponds to the source's `attempt = k + 1`).
The outcome records the result (`error none` is the source's `throw lastError`
with `lastError` still `null`, reachable only when `maxRetries = 0`), the
number of invocations of the operation, and the total time spent in
`setTimeout` waits. -/

structure RetryOutcome (E T : Type) where
  result : Except (Option E) T
  attempts : Nat
  totalWait : Nat
  deriving Repr

def retryOperationGo {E T : Type} (op : Nat → Except E T) :
    Nat → Nat → Nat → RetryOutcome E T
  | _, 0, _ => ⟨.error none, 0, 0⟩
  | attempt, r + 1, delay =>
    match op attempt with
    | .ok v => ⟨.ok v, 1, 0⟩
    | .error e =>
      if r = 0 then ⟨.error (some e), 1, 0⟩
      else
        let rest := retryOperationGo op (attempt + 1) r (delay * 2)
        ⟨rest.result, rest.attempts + 1, rest.totalWait + delay⟩

def retryOperation {E T : Type} (op : Nat → Except E T)
    (maxRetries : Nat) (delay : Nat) : RetryOutcome E T :=
  retryOperationGo op 0 maxRetries delay


/-! ## The upload pipeline (`uploadGeneratedImage`, source lines 110–271)

The pipeline's effects are recorded in an explicit trace (`Event`) and the
persisted state of the single tracking record is threaded through the run.
Timestamps: every `Date.now()` / `new Date()` call consumes one tick of an
abstract clock `Backend.clock : Nat → Nat`; `MetaVal.timeStr t` stands for
the `toISOString()` rendering of clock value `t`.  `created_at` is
backend-assigned and never read by the source, so it is omitted from the
record model.  JavaScript number subtraction is modelled by truncated `Nat`
subtraction (the claims under verification are unaffected). -/

inductive MetaVal where
  | str (s : String)
  | timeStr (t : Nat)
  | num (n : Nat)
  | details (name message : String)
  deriving Repr, DecidableEq

structure InsertPayload where
  original_filepath : String
  prompt : String
  status : String
  storage_path : String
  metadata : List (String × MetaVal)
  deriving Repr, DecidableEq

structure SuccessPatch where
  storage_path : String
  status : String
  metadata : List (String × MetaVal)
  deriving Repr, DecidableEq

structure ErrorPatch where
  status : String
  error_message : String
  metadata : List (String × MetaVal)
  deriving Repr, DecidableEq

/-- One network call issued by the pipeline (one event per attempt of each
retried operation).  `getPublicUrl` is a purely local computation in the
storage client and therefore not an event. -/
inductive Event where
  | insert (payload : InsertPayload)
  | storageUpload (bucket path : String) (bytes : List Nat)
      (contentType : String) (upsert : Bool)
  | update (id : String) (patch : SuccessPatch)
  | errorUpdate (id : String) (patch : ErrorPatch)
  deriving Repr, DecidableEq

/-- The persisted `generated_images` row (interface at source lines 15–24,
minus the backend-assigned `created_at`). -/
structure StoredRecord where
  id : String
  storage_path : String
  original_filepath : String
  prompt : String
  status : String
  error_message : Option String
  metadata : List (String × MetaVal)
  deriving Repr, DecidableEq

/-- A supabase error object (both `PostgrestError` and `StorageError` carry
`name` and `message` and extend `Error` in supabase-js v2). -/
structure SupabaseError where
  name : String
  message : String
  deriving Repr, DecidableEq

/-- Per-attempt behaviour of the backend (arbitrary), plus the abstract
clock.  A successful record insert yields the backend-assigned row id. -/
structure Backend where
  insertRes : Nat → Except SupabaseError String
  uploadRes : Nat → Except SupabaseError Unit
  updateRes : Nat → Except SupabaseError Unit
  errorUpdateRes : Nat → Except SupabaseError Unit
  clock : Nat → Nat

/-- The exceptions that can reach the pipeline's outer `catch`.
`thrownNull` is `throw lastError` with `lastError` still `null`
(`maxRetries = 0`; unreachable at the pipeline's call sites). -/
inductive PipeError where
  | validationFailed
  | noFilename
  | fsError (message : String)
  | backend (e : SupabaseError)
  | thrownNull
  deriving Repr, DecidableEq

/-- `error instanceof Error ? error.message : 'Unknown error'`. -/
def PipeError.message : PipeError → String
  | .validationFailed => "Image validation failed - check previous logs for details"
  | .noFilename => "Invalid filepath - no filename found"
  | .fsError m => m
  | .backend e => e.message
  | .thrownNull => "Unknown error"

/-- The `errorDetails` metadata value (source lines 252–256; the `stack`
field is opaque and omitted). -/
def errDetailsVal : PipeError → MetaVal
  | .thrownNull => .str "Unknown error type"
  | .validationFailed => .details "Error" PipeError.validationFailed.message
  | .noFilename => .details "Error" PipeError.noFilename.message
  | .fsError m => .details "Error" m
  | .backend e => .details e.name e.message

/-- What a `retryOperation` call site rethrows after exhaustion. -/
def liftErr : Option SupabaseError → PipeError
  | none => .thrownNull
  | some e => .backend e

/-- Pipeline-side state: the tick counter of the abstract clock, the trace
of issued network calls, the number of rows the backend has created, and
the persisted tracking record. -/
structure PState where
  tick : Nat
  events : List Event
  creations : Nat
  record : Option StoredRecord
  deriving Repr, DecidableEq

/-- The retry loop of `retryOperation` specialized to a stateful operation
(state: clock ticks consumed and effects performed by each attempt); the
wait bookkeeping is dropped here since the pipeline claims do not observe
it.  `error none` is again the `maxRetries = 0` `throw null` case. -/
def runRetry {St E α : Type} (op : Nat → St → St × Except E α) :
    Nat → Nat → St → St × Except (Option E) α
  | _, 0, s => (s, .error none)
  | attempt, r + 1, s =>
    let p := op attempt s
    match p.2 with
    | .ok v => (p.1, .ok v)
    | .error e =>
      if r = 0 then (p.1, .error (some e))
      else runRetry op (attempt + 1) r p.1

/-- Metadata written at record creation (source lines 141–145). -/
def creationMeta (filepath : String) (now : Nat) : List (String × MetaVal) :=
  [("uploadStarted", .timeStr now),
   ("originalFilename", .str (lastComp '/' filepath)),
   ("attempts", .num 1)]

/-- The row inserted at record creation (source lines 135–147). -/
def insertPayload (filepath prompt : String) (now : Nat) : InsertPayload :=
  { original_filepath := filepath
    prompt := prompt
    status := "uploading"
    storage_path := ""
    metadata := creationMeta filepath now }

/-- The stored row resulting from a successful insert: the payload plus the
backend-assigned id. -/
def mkStored (id : String) (p : InsertPayload) : StoredRecord :=
  { id := id
    storage_path := p.storage_path
    original_filepath := p.original_filepath
    prompt := p.prompt
    status := p.status
    error_message := none
    metadata := p.metadata }

/-- One attempt of the record-create closure (source lines 132–153):
`new Date()` consumes a tick, the insert call is traced, and on success the
backend creates the row and returns it. -/
def insertOp (be : Backend) (filepath prompt : String) (k : Nat) (s : PState) :
    PState × Except SupabaseError StoredRecord :=
  let payload := insertPayload filepath prompt (be.clock s.tick)
  let s1 : PState :=
    { s with tick := s.tick + 1, events := s.events ++ [.insert payload] }
  match be.insertRes k with
  | .error e => (s1, .error e)
  | .ok id =>
    let rec0 := mkStored id payload
    ({ s1 with creations := s1.creations + 1, record := some rec0 }, .ok rec0)

/-- One attempt of the storage-upload closure (source lines 174–184): the
upload is always issued with `contentType: 'image/png'` and `upsert: true`. -/
def uploadOp (be : Backend) (storagePath : String) (bytes : List Nat)
    (k : Nat) (s : PState) : PState × Except SupabaseError Unit :=
  ({ s with events := s.events ++
      [.storageUpload "generated-images" storagePath bytes "image/png" true] },
   be.uploadRes k)

/-- `getPublicUrl` (source lines 191–193): supabase-js computes
`<base>/storage/v1/object/public/<bucket>/<key>` locally. -/
def publicUrlOf (base path : String) : String :=
  base ++ "/storage/v1/object/public/generated-images/" ++ path

/-- The success-path update patch (source lines 201–209): JavaScript spread
`{...recordData.metadata, uploadCompleted, processingTime}`; the added keys
are disjoint from the creation keys, so the spread is an append. -/
def successPatch (recordData : StoredRecord) (publicUrl : String)
    (tIso tNow startTime : Nat) : SuccessPatch :=
  { storage_path := publicUrl
    status := "completed"
    metadata := recordData.metadata ++
      [("uploadCompleted", .timeStr tIso),
       ("processingTime", .num (tNow - startTime))] }

def applySuccessPatch (p : SuccessPatch) (r : StoredRecord) : StoredRecord :=
  { r with
    storage_path := p.storage_path
    status := p.status
    metadata := p.metadata }

/-- One attempt of the success-update closure (source lines 198–216):
`new Date()` and `Date.now()` consume two ticks; on success the backend
patches the row selected by `.eq('id', recordId)` — the one created row —
and echoes the updated row. -/
def updateOp (be : Backend) (recordData : StoredRecord) (publicUrl : String)
    (startTime : Nat) (k : Nat) (s : PState) :
    PState × Except SupabaseError (Option StoredRecord) :=
  let patch := successPatch recordData publicUrl (be.clock s.tick)
    (be.clock (s.tick + 1)) startTime
  let s1 : PState := { s with
    tick := s.tick + 2
    events := s.events ++ [.update recordData.id patch] }
  match be.updateRes k with
  | .error e => (s1, .error e)
  | .ok _ =>
    let newRec := s1.record.map (applySuccessPatch patch)
    ({ s1 with record := newRec }, .ok newRec)

/-- The error-path update patch (source lines 246–258): a fresh metadata
object — the creation metadata is not spread in. -/
def errorPatch (err : PipeError) (tIso failureTime : Nat) : ErrorPatch :=
  { status := "error"
    error_message := err.message
    metadata := [("errorTimestamp", .timeStr tIso),
                 ("processingTime", .num failureTime),
                 ("errorDetails", errDetailsVal err)] }

def applyErrorPatch (p : ErrorPatch) (r : StoredRecord) : StoredRecord :=
  { r with
    status := p.status
    error_message := some p.error_message
    metadata := p.metadata }

/-- One attempt of the error-status update closure (source lines 243–263). -/
def errorUpdateOp (be : Backend) (recordId : String) (err : PipeError)
    (failureTime : Nat) (k : Nat) (s : PState) :
    PState × Except SupabaseError Unit :=
  let patch := errorPatch err (be.clock s.tick) failureTime
  let s1 : PState := { s with
    tick := s.tick + 1
    events := s.events ++ [.errorUpdate recordId patch] }
  match be.errorUpdateRes k with
  | .error e => (s1, .error e)
  | .ok _ => ({ s1 with record := s1.record.map (applyErrorPatch patch) }, .ok ())

/-- The outer `catch` (source lines 231–269): `Date.now()` consumes a tick;
if a record id was assigned, the error-status update runs under its own
retry budget and its own failure is swallowed. -/
def handleFailure (be : Backend) (err : PipeError) (recordId : Option String)
    (startTime : Nat) (s : PState) : PState :=
  let failureTime := be.clock s.tick - startTime
  let s1 : PState := { s with tick := s.tick + 1 }
  match recordId with
  | none => s1
  | some rid => (runRetry (errorUpdateOp be rid err failureTime) 0 3 s1).1

structure UploadOutcome where
  result : Option StoredRecord
  final : PState
  deriving Repr, DecidableEq

/-- `uploadGeneratedImage` (source lines 110–271).  `base` is the
`SUPABASE_URL` the storage client was created with.  The checks at source
lines 155–157, 186–188 and 218–220 are dead code (the retried closures only
resolve when `result.error` is falsy) and drop out of the model. -/
def uploadGeneratedImage (fs : FS) (be : Backend) (base filepath prompt : String) :
    UploadOutcome :=
  let startTime := be.clock 0
  let s1 : PState := { tick := 1, events := [], creations := 0, record := none }
  if validateImage fs filepath then
    let insRun := runRetry (insertOp be filepath prompt) 0 3 s1
    match insRun.2 with
    | .error e =>
      ⟨none, handleFailure be (liftErr e) none startTime insRun.1⟩
    | .ok recordData =>
      match fs.readFile filepath with
      | .error msg =>
        ⟨none, handleFailure be (.fsError msg) (some recordData.id) startTime insRun.1⟩
      | .ok fileBuffer =>
        let filename := lastComp '/' filepath
        if filename = "" then
          ⟨none, handleFailure be .noFilename (some recordData.id) startTime insRun.1⟩
        else
          let storagePath := "generated-images/" ++ recordData.id ++ "_" ++ filename
          let uplRun := runRetry (uploadOp be storagePath fileBuffer) 0 3 insRun.1
          match uplRun.2 with
          | .error e =>
            ⟨none, handleFailure be (liftErr e) (some recordData.id) startTime uplRun.1⟩
          | .ok _ =>
            let publicUrl := publicUrlOf base storagePath
            let updRun := runRetry
              (updateOp be recordData publicUrl startTime) 0 3 uplRun.1
            match updRun.2 with
            | .error e =>
              ⟨none, handleFailure be (liftErr e) (some recordData.id) startTime updRun.1⟩
            | .ok updatedRecord =>
              -- the success log's `Date.now()` (source line 222) consumes a tick
              ⟨updatedRecord, { updRun.1 with tick := updRun.1.tick + 1 }⟩
  else
    ⟨none, handleFailure be .validationFailed none startTime s1⟩


/-! ## Concrete fixtures (used by witnesses and counterexamples) -/

/-- A filesystem holding a 2 KiB file whose leading bytes are the JPEG
signature `FF D8`, under any path. -/
def jpegFS : FS :=
  { existsSync := fun _ => true,
    statSize := fun _ => .ok 2048,
    read4 := fun _ => .ok [0xff, 0xd8, 0xff, 0xe0],
    readFile := fun _ => .ok [0xff, 0xd8, 0xff, 0xe0] }

/-- A filesystem holding a valid 2 KiB PNG under any path. -/
def pngFS : FS :=
  { existsSync := fun _ => true
    statSize := fun _ => .ok 2048
    read4 := fun _ => .ok [0x89, 0x50, 0x4e, 0x47]
    readFile := fun _ => .ok [0x89, 0x50, 0x4e, 0x47, 1, 2, 3] }

/-- A backend on which every operation succeeds; inserts are assigned id
`R1`; the clock ticks in unit steps. -/
def okBE : Backend :=
  { insertRes := fun _ => .ok "R1"
    uploadRes := fun _ => .ok ()
    updateRes := fun _ => .ok ()
    errorUpdateRes := fun _ => .ok ()
    clock := fun t => t }

/-- A backend on which the record insert succeeds but every storage-upload
attempt fails; the error-status update succeeds. -/
def uploadFailBE : Backend :=
  { okBE with
    uploadRes := fun _ => .error ⟨"StorageError", "upload refused"⟩ }

/-- As `uploadFailBE`, but the error-status update also fails on every
attempt. -/
def recoveryFailBE : Backend :=
  { uploadFailBE with
    errorUpdateRes := fun _ => .error ⟨"PostgrestError", "update refused"⟩ }


/-! ## Generic facts about the stateful retry loop -/

def succeeds {ε α : Type} (r : Except ε α) : Prop := ∃ v, r = .ok v

/-- The operation has a successful attempt within the first `n`. -/
def okWithin {F β : Type} (res : Nat → Except F β) (n : Nat) : Prop :=
  ∃ k, k < n ∧ succeeds (res k)

/-! ## Event-trace invariants -/

def eventsOk (Q : Event → Prop) (s : PState) : Prop := ∀ ev ∈ s.events, Q ev


/-! ## Characterization of `validateImage` (shared helper) -/

lemma validateImage_iff_aux (fs : FS) (fp : String) :
    validateImage fs fp = true ↔
      fs.existsSync fp = true ∧
      ∃ size, fs.statSize fp = .ok size ∧ 0 < size ∧ size ≤ 5 * 1024 * 1024 ∧
        extOf fp ∈ ["png", "jpg", "jpeg", "gif"] ∧
        ∃ bs, fs.read4 fp = .ok bs ∧ checkMagic (buf4 bs) = true := by
  unfold validateImage
  cases hex : fs.existsSync fp
  · simp
  · rcases hst : fs.statSize fp with msg | size
    · simp
    · rcases hrd : fs.read4 fp with m2 | bs
      · simp only [Bool.not_true, Bool.false_eq_true, if_false, true_and]
        split_ifs <;> simp_all
      · simp only [Bool.not_true, Bool.false_eq_true, if_false, true_and]
        have hne : extOf fp ∈ ["png", "jpg", "jpeg", "gif"] → ¬ extOf fp = "" := by
          intro hm he
          rw [he] at hm
          simp at hm
        split_ifs with h0 h5 hext
        · simp_all
        · constructor
          · intro h; cases h
          · rintro ⟨s, hs, hpos, hle, _⟩
            obtain rfl : size = s := by injection hs
            omega
        · constructor
          · intro h; cases h
          · rintro ⟨s, hs, hpos, hle, hmem, _⟩
            obtain rfl : size = s := by injection hs
            rcases hext with he | hnm
            · exact hne hmem he
            · exact hnm hmem
        · constructor
          · intro h
            exact ⟨size, rfl, by omega, by omega, by tauto, bs, rfl, h⟩
          · rintro ⟨s, hs, hpos, hle, hmem, bs2, hbs2, hm⟩
            obtain rfl : bs = bs2 := by injection hbs2
            exact hm

/-- C2: `validateImage` never throws (it is a total function of the
filesystem behaviour) and returns `true` iff the file exists, its size is
`> 0` and `≤ 5 MiB`, its extension (the last `'.'`-separated component,
lowercased) is one of `png`, `jpg`, `jpeg`, `gif`, and the first bytes match
a known image signature (PNG `89 50 4E 47`, JPEG `FF D8` prefix, or GIF
`47 49 46 38`); every check failure or internal filesystem error (an
`error` result from `stat` or the byte read) collapses to `false`. -/
theorem validateImage_true_iff (fs : FS) (fp : String) :
    validateImage fs fp = true ↔
      fs.existsSync fp = true ∧
      ∃ size, fs.statSize fp = .ok size ∧ 0 < size ∧ size ≤ 5 * 1024 * 1024 ∧
        extOf fp ∈ ["png", "jpg", "jpeg", "gif"] ∧
        ∃ bs, fs.read4 fp = .ok bs ∧ checkMagic (buf4 bs) = true :=
  validateImage_iff_aux fs fp

/-! ## Retry executor: exhaustion and backoff -/

/-- C6: an operation that fails on every attempt, run with `maxRetries = 3`,
is invoked exactly 3 times and the executor re-raises exactly the error of
the last (third) attempt. -/
theorem retryOperation_exhausts_three {E T : Type} (err : Nat → E) (d : Nat) :
    (retryOperation (fun k => (.error (err k) : Except E T)) 3 d).attempts = 3 ∧
    (retryOperation (fun k => (.error (err k) : Except E T)) 3 d).result
      = .error (some (err 2)) :=
  ⟨rfl, rfl⟩

lemma retryGo_succeeds {E T : Type} (op : Nat → Except E T) (v : T) :
    ∀ (N a r d : Nat), N < r →
      (∀ k, k < N → ∃ e, op (a + k) = .error e) →
      op (a + N) = .ok v →
      retryOperationGo op a r d = ⟨.ok v, N + 1, d * (2 ^ N - 1)⟩ := by
  intro N
  induction N with
  | zero =>
    intro a r d hr hfail hok
    obtain ⟨r1, rfl⟩ : ∃ r1, r = r1 + 1 := ⟨r - 1, by omega⟩
    rw [Nat.add_zero] at hok
    simp [retryOperationGo, hok]
  | succ N ih =>
    intro a r d hr hfail hok
    obtain ⟨r1, rfl⟩ : ∃ r1, r = r1 + 1 := ⟨r - 1, by omega⟩
    obtain ⟨e0, he0⟩ := hfail 0 (Nat.succ_pos N)
    rw [Nat.add_zero] at he0
    have hr1 : ¬ (r1 = 0) := by omega
    have hrec := ih (a + 1) r1 (d * 2) (by omega)
      (fun k hk => by
        obtain ⟨e, he⟩ := hfail (k + 1) (by omega)
        refine ⟨e, ?_⟩
        rw [show a + 1 + k = a + (k + 1) from by omega]
        exact he)
      (by rw [show a + 1 + N = a + (N + 1) from by omega]; exact hok)
    simp only [retryOperationGo, he0, hr1, if_false, hrec]
    have h1 : 0 < 2 ^ N := pow_pos (by norm_num) N
    have h2 : 2 ^ (N + 1) - 1 = 2 * (2 ^ N - 1) + 1 := by
      rw [pow_succ]; omega
    refine congrArg (RetryOutcome.mk (.ok v) (N + 1 + 1)) ?_
    rw [h2]
    ring

lemma sum_delay_geom (d N : Nat) :
    ∑ k ∈ Finset.range N, d * 2 ^ k = d * (2 ^ N - 1) := by
  induction N with
  | zero => simp
  | succ n ih =>
    rw [Finset.sum_range_succ, ih]
    have h1 : 0 < 2 ^ n := pow_pos (by norm_num) n
    have h2 : 2 ^ (n + 1) - 1 = (2 ^ n - 1) + 2 ^ n := by rw [pow_succ]; omega
    rw [h2, Nat.mul_add]

/-- C7: an operation that fails exactly `N` times and then succeeds, run with
`maxRetries > N`, returns the success value after `N + 1` invocations, and
the total wait accumulated between attempts is
`∑ k in 0..N-1, delay * 2 ^ k` (doubling after each failure, no jitter, no
cap, no wait after the successful attempt). -/
theorem retryOperation_backoff_spec {E T : Type} (op : Nat → Except E T) (v : T)
    (N maxRetries d : Nat)
    (hfail : ∀ k, k < N → ∃ e, op k = .error e)
    (hok : op N = .ok v)
    (hlt : N < maxRetries) :
    (retryOperation op maxRetries d).result = .ok v ∧
    (retryOperation op maxRetries d).attempts = N + 1 ∧
    (retryOperation op maxRetries d).totalWait
      = ∑ k ∈ Finset.range N, d * 2 ^ k := by
  have h := retryGo_succeeds op v N 0 maxRetries d hlt
    (fun k hk => by simpa using hfail k hk) (by simpa using hok)
  rw [retryOperation, h, sum_delay_geom]
  exact ⟨rfl, rfl, rfl⟩

/-- C7 witness: an operation failing twice then succeeding, with
`maxRetries = 3` and `delay = 1000`, returns the success value after 3
invocations having waited `1000 + 2000`. -/
theorem retryOperation_backoff_spec_witness :
    (retryOperation
        (fun k => if k < 2 then (.error "boom" : Except String Nat) else .ok 42)
        3 1000).result = .ok 42 ∧
    (retryOperation
        (fun k => if k < 2 then (.error "boom" : Except String Nat) else .ok 42)
        3 1000).attempts = 2 + 1 ∧
    (retryOperation
        (fun k => if k < 2 then (.error "boom" : Except String Nat) else .ok 42)
        3 1000).totalWait = ∑ k ∈ Finset.range 2, 1000 * 2 ^ k :=
  retryOperation_backoff_spec
    (fun k => if k < 2 then (.error "boom" : Except String Nat) else .ok 42) 42
    2 3 1000
    (by intro k hk; interval_cases k <;> exact ⟨"boom", rfl⟩)
    rfl (by omega)


/-! ## C8: `.png` extension with JPEG magic bytes -/

/-- C8 counterexample: for the existing, non-empty, ≤ 5 MiB file
`photo.png` whose content starts with the JPEG signature `FF D8`,
`validateImage` returns `true` — not `false` as claimed: the magic-byte
check accepts any of the three known signatures regardless of the file's
extension. -/
theorem validate_png_ext_jpeg_magic_cex :
    validateImage jpegFS "photo.png" = true := by decide

lemma checkMagic_jpeg (rest : List Nat) :
    checkMagic (buf4 (0xff :: 0xd8 :: rest)) = true := by
  rcases rest with _ | ⟨x, _ | ⟨y, t⟩⟩ <;> simp [buf4, checkMagic]

/-- C8 amended: for every existing, non-empty, at-most-5-MiB file whose
extension (as computed by the source: last `'.'`-component, lowercased) is
`png` but whose leading content bytes are a JPEG signature (`FF D8`),
`validateImage` returns `true`: the signature check accepts any known image
signature and never compares it against the extension. -/
theorem validate_png_ext_jpeg_magic (fs : FS) (fp : String) (rest : List Nat)
    (hex : fs.existsSync fp = true)
    (hst : ∃ size, fs.statSize fp = .ok size ∧ 0 < size ∧
      size ≤ 5 * 1024 * 1024)
    (hext : extOf fp = "png")
    (hrd : fs.read4 fp = .ok (0xff :: 0xd8 :: rest)) :
    validateImage fs fp = true := by
  rcases hst with ⟨size, h1, h2, h3⟩
  refine (validateImage_iff_aux fs fp).mpr
    ⟨hex, size, h1, h2, h3, ?_, _, hrd, checkMagic_jpeg rest⟩
  rw [hext]
  simp

/-- C8 amended witness. -/
theorem validate_png_ext_jpeg_magic_witness :
    validateImage jpegFS "holiday.png" = true :=
  validate_png_ext_jpeg_magic jpegFS "holiday.png" [0xff, 0xe0] rfl
    ⟨2048, rfl, by norm_num, by norm_num⟩ (by decide) rfl


lemma runRetry_state_inv {St E α : Type} (op : Nat → St → St × Except E α)
    (P : St → Prop) (hP : ∀ k s, P s → P (op k s).1) :
    ∀ a r s, P s → P (runRetry op a r s).1 := by
  intro a r
  induction r generalizing a with
  | zero => intro s hs; simpa [runRetry] using hs
  | succ r ih =>
    intro s hs
    simp only [runRetry]
    rcases h2 : (op a s).2 with e | v
    · simp only [h2]
      split_ifs with hr
      · exact hP a s hs
      · exact ih (a + 1) (op a s).1 (hP a s hs)
    · simp only [h2]
      exact hP a s hs

lemma runRetry_ok_elim {St E α : Type} (op : Nat → St → St × Except E α)
    (R : St → Prop) (S : α → St → Prop)
    (hR : ∀ k s e, R s → (op k s).2 = .error e → R (op k s).1)
    (hS : ∀ k s v, R s → (op k s).2 = .ok v → S v (op k s).1) :
    ∀ a r s v, R s → (runRetry op a r s).2 = .ok v →
      S v (runRetry op a r s).1 := by
  intro a r
  induction r generalizing a with
  | zero => intro s v _ h; simp [runRetry] at h
  | succ r ih =>
    intro s v hs h
    simp only [runRetry] at h ⊢
    rcases h2 : (op a s).2 with e | w
    · simp only [h2] at h ⊢
      split_ifs at h ⊢ with hr
      exact ih (a + 1) (op a s).1 v (hR a s e hs h2) h
    · simp only [h2] at h ⊢
      obtain rfl : w = v := by simpa using h
      exact hS a s w hs h2

lemma runRetry_succeeds_iff {St E α F β : Type}
    (op : Nat → St → St × Except E α) (res : Nat → Except F β)
    (h : ∀ k s, succeeds (op k s).2 ↔ succeeds (res k)) :
    ∀ a r s, succeeds (runRetry op a r s).2 ↔
      ∃ k, k < r ∧ succeeds (res (a + k)) := by
  intro a r
  induction r generalizing a with
  | zero =>
    intro s
    simp [runRetry, succeeds]
  | succ r ih =>
    intro s
    simp only [runRetry]
    rcases h2 : (op a s).2 with e | v
    · simp only [h2]
      split_ifs with hr
      · subst hr
        constructor
        · rintro ⟨w, hw⟩; cases hw
        · rintro ⟨k, hk, hsucc⟩
          obtain rfl : k = 0 := by omega
          rw [Nat.add_zero] at hsucc
          obtain ⟨w, hw⟩ := (h a s).mpr hsucc
          rw [h2] at hw
          cases hw
      · rw [ih (a + 1) (op a s).1]
        constructor
        · rintro ⟨k, hk, hsucc⟩
          refine ⟨k + 1, by omega, ?_⟩
          rwa [show a + (k + 1) = a + 1 + k from by omega]
        · rintro ⟨k, hk, hsucc⟩
          match k with
          | 0 =>
            rw [Nat.add_zero] at hsucc
            obtain ⟨w, hw⟩ := (h a s).mpr hsucc
            rw [h2] at hw
            cases hw
          | k + 1 =>
            refine ⟨k, by omega, ?_⟩
            rwa [show a + 1 + k = a + (k + 1) from by omega]
    · simp only [h2]
      constructor
      · intro _
        exact ⟨0, by omega, by rw [Nat.add_zero]; exact (h a s).mp ⟨v, h2⟩⟩
      · intro _
        exact ⟨v, rfl⟩

lemma runRetry_error_last {St E α : Type} (op : Nat → St → St × Except E α)
    (res : Nat → Except E α) (h : ∀ k s, (op k s).2 = res k)
    (e0 e1 e2 : E)
    (h0 : res 0 = .error e0) (h1 : res 1 = .error e1) (h2 : res 2 = .error e2) :
    ∀ s : St, (runRetry op 0 3 s).2 = .error (some e2) := by
  intro s
  simp [runRetry, h, h0, h1, h2]

/-! ## Per-operation facts -/

lemma insertOp_succeeds_iff (be : Backend) (fp pr : String) (k : Nat) (s : PState) :
    succeeds (insertOp be fp pr k s).2 ↔ succeeds (be.insertRes k) := by
  rcases h : be.insertRes k with e | id <;> simp [insertOp, succeeds, h]

lemma uploadOp_res (be : Backend) (path : String) (bytes : List Nat)
    (k : Nat) (s : PState) : (uploadOp be path bytes k s).2 = be.uploadRes k := rfl

lemma updateOp_succeeds_iff (be : Backend) (rd : StoredRecord) (pu : String)
    (st k : Nat) (s : PState) :
    succeeds (updateOp be rd pu st k s).2 ↔ succeeds (be.updateRes k) := by
  rcases h : be.updateRes k with e | u <;> simp [updateOp, succeeds, h]

lemma errorUpdateOp_succeeds_iff (be : Backend) (rid : String) (err : PipeError)
    (ft k : Nat) (s : PState) :
    succeeds (errorUpdateOp be rid err ft k s).2 ↔ succeeds (be.errorUpdateRes k) := by
  rcases h : be.errorUpdateRes k with e | u <;> simp [errorUpdateOp, succeeds, h]

lemma insertOp_events_eq (be : Backend) (fp pr : String) (k : Nat) (s : PState) :
    (insertOp be fp pr k s).1.events
      = s.events ++ [.insert (insertPayload fp pr (be.clock s.tick))] := by
  rcases h : be.insertRes k with e | id <;> simp [insertOp, h]

lemma uploadOp_events_eq (be : Backend) (path : String) (bytes : List Nat)
    (k : Nat) (s : PState) :
    (uploadOp be path bytes k s).1.events
      = s.events ++ [.storageUpload "generated-images" path bytes "image/png" true] :=
  rfl

lemma updateOp_events_eq (be : Backend) (rd : StoredRecord) (pu : String)
    (st k : Nat) (s : PState) :
    (updateOp be rd pu st k s).1.events
      = s.events ++ [.update rd.id (successPatch rd pu (be.clock s.tick)
          (be.clock (s.tick + 1)) st)] := by
  rcases h : be.updateRes k with e | u <;> simp [updateOp, h]

lemma errorUpdateOp_events_eq (be : Backend) (rid : String) (err : PipeError)
    (ft k : Nat) (s : PState) :
    (errorUpdateOp be rid err ft k s).1.events
      = s.events ++ [.errorUpdate rid (errorPatch err (be.clock s.tick) ft)] := by
  rcases h : be.errorUpdateRes k with e | u <;> simp [errorUpdateOp, h]

/-! ## Per-operation state equations (record and creation count) -/

lemma insertOp_err_state (be : Backend) (fp pr : String) (k : Nat) (s : PState)
    (e : SupabaseError) (h : (insertOp be fp pr k s).2 = .error e) :
    (insertOp be fp pr k s).1.record = s.record ∧
    (insertOp be fp pr k s).1.creations = s.creations := by
  rcases hr : be.insertRes k with e2 | id
  · simp [insertOp, hr]
  · simp [insertOp, hr] at h

lemma insertOp_ok_state (be : Backend) (fp pr : String) (k : Nat) (s : PState)
    (v : StoredRecord) (h : (insertOp be fp pr k s).2 = .ok v) :
    (insertOp be fp pr k s).1.record = some v ∧
    (insertOp be fp pr k s).1.creations = s.creations + 1 ∧
    ∃ id, v = mkStored id (insertPayload fp pr (be.clock s.tick)) := by
  rcases hr : be.insertRes k with e2 | id
  · simp [insertOp, hr] at h
  · have hv : v = mkStored id (insertPayload fp pr (be.clock s.tick)) := by
      have h2 := h
      simp [insertOp, hr] at h2
      exact h2.symm
    subst hv
    refine ⟨?_, ?_, id, rfl⟩ <;> simp [insertOp, hr]

lemma uploadOp_state (be : Backend) (path : String) (bytes : List Nat)
    (k : Nat) (s : PState) :
    (uploadOp be path bytes k s).1.record = s.record ∧
    (uploadOp be path bytes k s).1.creations = s.creations :=
  ⟨rfl, rfl⟩

lemma updateOp_err_state (be : Backend) (rd : StoredRecord) (pu : String)
    (st k : Nat) (s : PState) (e : SupabaseError)
    (h : (updateOp be rd pu st k s).2 = .error e) :
    (updateOp be rd pu st k s).1.record = s.record ∧
    (updateOp be rd pu st k s).1.creations = s.creations := by
  rcases hr : be.updateRes k with e2 | u
  · simp [updateOp, hr]
  · simp [updateOp, hr] at h

lemma updateOp_ok_state (be : Backend) (rd : StoredRecord) (pu : String)
    (st k : Nat) (s : PState) (v : Option StoredRecord)
    (h : (updateOp be rd pu st k s).2 = .ok v) :
    v = s.record.map (applySuccessPatch
      (successPatch rd pu (be.clock s.tick) (be.clock (s.tick + 1)) st)) ∧
    (updateOp be rd pu st k s).1.record = v ∧
    (updateOp be rd pu st k s).1.creations = s.creations := by
  rcases hr : be.updateRes k with e2 | u
  · simp [updateOp, hr] at h
  · have hv : v = s.record.map (applySuccessPatch
        (successPatch rd pu (be.clock s.tick) (be.clock (s.tick + 1)) st)) := by
      have h2 := h
      simp [updateOp, hr] at h2
      exact h2.symm
    subst hv
    refine ⟨rfl, ?_, ?_⟩ <;> simp [updateOp, hr]

lemma errorUpdateOp_err_state (be : Backend) (rid : String) (err : PipeError)
    (ft k : Nat) (s : PState) (e : SupabaseError)
    (h : (errorUpdateOp be rid err ft k s).2 = .error e) :
    (errorUpdateOp be rid err ft k s).1.record = s.record ∧
    (errorUpdateOp be rid err ft k s).1.creations = s.creations := by
  rcases hr : be.errorUpdateRes k with e2 | u
  · simp [errorUpdateOp, hr]
  · simp [errorUpdateOp, hr] at h

lemma errorUpdateOp_ok_state (be : Backend) (rid : String) (err : PipeError)
    (ft k : Nat) (s : PState) (v : Unit)
    (h : (errorUpdateOp be rid err ft k s).2 = .ok v) :
    (errorUpdateOp be rid err ft k s).1.record
      = s.record.map (applyErrorPatch (errorPatch err (be.clock s.tick) ft)) ∧
    (errorUpdateOp be rid err ft k s).1.creations = s.creations := by
  rcases hr : be.errorUpdateRes k with e2 | u
  · simp [errorUpdateOp, hr] at h
  · simp [errorUpdateOp, hr]

/-! ## Stage-level success characterizations -/

lemma insert_stage_iff (be : Backend) (fp pr : String) (s : PState) :
    succeeds (runRetry (insertOp be fp pr) 0 3 s).2 ↔ okWithin be.insertRes 3 := by
  rw [runRetry_succeeds_iff (insertOp be fp pr) be.insertRes
    (fun k s => insertOp_succeeds_iff be fp pr k s) 0 3 s]
  simp [okWithin]

lemma upload_stage_iff (be : Backend) (path : String) (bytes : List Nat) (s : PState) :
    succeeds (runRetry (uploadOp be path bytes) 0 3 s).2 ↔ okWithin be.uploadRes 3 := by
  rw [runRetry_succeeds_iff (uploadOp be path bytes) be.uploadRes
    (fun k s => by rw [uploadOp_res]) 0 3 s]
  simp [okWithin]

lemma update_stage_iff (be : Backend) (rd : StoredRecord) (pu : String)
    (st : Nat) (s : PState) :
    succeeds (runRetry (updateOp be rd pu st) 0 3 s).2 ↔ okWithin be.updateRes 3 := by
  rw [runRetry_succeeds_iff (updateOp be rd pu st) be.updateRes
    (fun k s => updateOp_succeeds_iff be rd pu st k s) 0 3 s]
  simp [okWithin]

lemma errorUpdate_stage_iff (be : Backend) (rid : String) (err : PipeError)
    (ft : Nat) (s : PState) :
    succeeds (runRetry (errorUpdateOp be rid err ft) 0 3 s).2
      ↔ okWithin be.errorUpdateRes 3 := by
  rw [runRetry_succeeds_iff (errorUpdateOp be rid err ft) be.errorUpdateRes
    (fun k s => errorUpdateOp_succeeds_iff be rid err ft k s) 0 3 s]
  simp [okWithin]

lemma updateOp_creations (be : Backend) (rd : StoredRecord) (pu : String)
    (st k : Nat) (s : PState) :
    (updateOp be rd pu st k s).1.creations = s.creations := by
  rcases hr : be.updateRes k with e | u <;> simp [updateOp, hr]

lemma errorUpdateOp_creations (be : Backend) (rid : String) (err : PipeError)
    (ft k : Nat) (s : PState) :
    (errorUpdateOp be rid err ft k s).1.creations = s.creations := by
  rcases hr : be.errorUpdateRes k with e | u <;> simp [errorUpdateOp, hr]

/-! ## Stage-level state lemmas -/

lemma insert_stage_ok_state (be : Backend) (fp pr : String) (s : PState)
    (v : StoredRecord) (hc : s.creations = 0)
    (h : (runRetry (insertOp be fp pr) 0 3 s).2 = .ok v) :
    (runRetry (insertOp be fp pr) 0 3 s).1.record = some v ∧
    (runRetry (insertOp be fp pr) 0 3 s).1.creations = 1 ∧
    ∃ id t, v = mkStored id (insertPayload fp pr t) := by
  refine runRetry_ok_elim (insertOp be fp pr)
    (fun st => st.creations = 0)
    (fun w st => st.record = some w ∧ st.creations = 1 ∧
      ∃ id t, w = mkStored id (insertPayload fp pr t))
    ?_ ?_ 0 3 s v hc h
  · intro k s2 e hR2 he
    rw [(insertOp_err_state be fp pr k s2 e he).2, hR2]
  · intro k s2 w hR2 hok
    obtain ⟨h1, h2, id, hid⟩ := insertOp_ok_state be fp pr k s2 w hok
    exact ⟨h1, by rw [h2, hR2], id, be.clock s2.tick, hid⟩

lemma upload_stage_state (be : Backend) (path : String) (bytes : List Nat)
    (s : PState) :
    (runRetry (uploadOp be path bytes) 0 3 s).1.record = s.record ∧
    (runRetry (uploadOp be path bytes) 0 3 s).1.creations = s.creations :=
  runRetry_state_inv (uploadOp be path bytes)
    (fun st => st.record = s.record ∧ st.creations = s.creations)
    (fun k s2 h2 => ⟨by rw [(uploadOp_state be path bytes k s2).1, h2.1],
                     by rw [(uploadOp_state be path bytes k s2).2, h2.2]⟩)
    0 3 s ⟨rfl, rfl⟩

lemma update_stage_ok_state (be : Backend) (rd : StoredRecord) (pu : String)
    (st : Nat) (s : PState) (v : Option StoredRecord)
    (hrec : s.record = some rd)
    (h : (runRetry (updateOp be rd pu st) 0 3 s).2 = .ok v) :
    (∃ t, v = some (applySuccessPatch
        (successPatch rd pu (be.clock t) (be.clock (t + 1)) st) rd)) ∧
    (runRetry (updateOp be rd pu st) 0 3 s).1.record = v := by
  refine runRetry_ok_elim (updateOp be rd pu st)
    (fun st2 => st2.record = some rd)
    (fun w st2 => (∃ t, w = some (applySuccessPatch
        (successPatch rd pu (be.clock t) (be.clock (t + 1)) st) rd)) ∧
      st2.record = w)
    ?_ ?_ 0 3 s v hrec h
  · intro k s2 e h2 he
    rw [(updateOp_err_state be rd pu st k s2 e he).1, h2]
  · intro k s2 w h2 hok
    obtain ⟨hw, hrec2, _⟩ := updateOp_ok_state be rd pu st k s2 w hok
    rw [h2] at hw
    exact ⟨⟨s2.tick, by rw [hw]; rfl⟩, hrec2⟩

lemma update_stage_creations (be : Backend) (rd : StoredRecord) (pu : String)
    (st : Nat) (s : PState) :
    (runRetry (updateOp be rd pu st) 0 3 s).1.creations = s.creations :=
  runRetry_state_inv (updateOp be rd pu st)
    (fun st2 => st2.creations = s.creations)
    (fun k s2 h2 =>
      show (updateOp be rd pu st k s2).1.creations = s.creations by
        rw [updateOp_creations be rd pu st k s2]
        exact h2) 0 3 s rfl

lemma errorUpdate_stage_ok_state (be : Backend) (rid : String) (err : PipeError)
    (ft : Nat) (s : PState) (rec1 : StoredRecord) (hrec : s.record = some rec1)
    (hok : okWithin be.errorUpdateRes 3) :
    ∃ t, (runRetry (errorUpdateOp be rid err ft) 0 3 s).1.record
      = some (applyErrorPatch (errorPatch err (be.clock t) ft) rec1) := by
  obtain ⟨u, hu⟩ := (errorUpdate_stage_iff be rid err ft s).mpr hok
  exact runRetry_ok_elim (errorUpdateOp be rid err ft)
    (fun st2 => st2.record = some rec1)
    (fun _ st2 => ∃ t, st2.record
      = some (applyErrorPatch (errorPatch err (be.clock t) ft) rec1))
    (fun k s2 e h2 he =>
      show (errorUpdateOp be rid err ft k s2).1.record = some rec1 by
        rw [(errorUpdateOp_err_state be rid err ft k s2 e he).1]
        exact h2)
    (fun k s2 w h2 hok2 => ⟨s2.tick, by
      rw [(errorUpdateOp_ok_state be rid err ft k s2 w hok2).1, h2]; rfl⟩)
    0 3 s u hrec hu


lemma eventsOk_append {Q : Event → Prop} {l1 l2 : List Event}
    (h1 : ∀ ev ∈ l1, Q ev) (h2 : ∀ ev ∈ l2, Q ev) : ∀ ev ∈ l1 ++ l2, Q ev := by
  intro ev hev
  rcases List.mem_append.mp hev with h | h
  · exact h1 ev h
  · exact h2 ev h

lemma insertOp_eventsOk {Q : Event → Prop} (be : Backend) (fp pr : String)
    (hQ : ∀ now, Q (.insert (insertPayload fp pr now)))
    (k : Nat) (s : PState) (hs : eventsOk Q s) :
    eventsOk Q (insertOp be fp pr k s).1 := by
  rw [eventsOk, insertOp_events_eq]
  exact eventsOk_append hs (by simpa using hQ (be.clock s.tick))

lemma uploadOp_eventsOk {Q : Event → Prop} (be : Backend) (path : String)
    (bytes : List Nat)
    (hQ : Q (.storageUpload "generated-images" path bytes "image/png" true))
    (k : Nat) (s : PState) (hs : eventsOk Q s) :
    eventsOk Q (uploadOp be path bytes k s).1 := by
  rw [eventsOk, uploadOp_events_eq]
  exact eventsOk_append hs (by simpa using hQ)

lemma updateOp_eventsOk {Q : Event → Prop} (be : Backend) (rd : StoredRecord)
    (pu : String) (st : Nat)
    (hQ : ∀ id patch, Q (.update id patch))
    (k : Nat) (s : PState) (hs : eventsOk Q s) :
    eventsOk Q (updateOp be rd pu st k s).1 := by
  rw [eventsOk, updateOp_events_eq]
  exact eventsOk_append hs (by simpa using hQ rd.id _)

lemma errorUpdateOp_eventsOk {Q : Event → Prop} (be : Backend) (rid : String)
    (err : PipeError) (ft : Nat)
    (hQ : ∀ id patch, Q (.errorUpdate id patch))
    (k : Nat) (s : PState) (hs : eventsOk Q s) :
    eventsOk Q (errorUpdateOp be rid err ft k s).1 := by
  rw [eventsOk, errorUpdateOp_events_eq]
  exact eventsOk_append hs (by simpa using hQ rid _)

lemma handleFailure_eventsOk {Q : Event → Prop}
    (hQe : ∀ id patch, Q (.errorUpdate id patch))
    (be : Backend) (err : PipeError) (recordId : Option String)
    (startTime : Nat) (s : PState) (hs : eventsOk Q s) :
    eventsOk Q (handleFailure be err recordId startTime s) := by
  unfold handleFailure
  rcases recordId with _ | rid
  · exact hs
  · exact runRetry_state_inv _ (eventsOk Q)
      (fun k s => errorUpdateOp_eventsOk be rid err _ hQe k s) 0 3 _ hs

/-- Every event the pipeline ever emits satisfies `Q`, provided `Q` accepts
the four call shapes the pipeline issues. -/
lemma upload_eventsOk (Q : Event → Prop) (fs : FS) (be : Backend)
    (base fp pr : String)
    (hQi : ∀ now, Q (.insert (insertPayload fp pr now)))
    (hQu : ∀ path bytes, Q (.storageUpload "generated-images" path bytes "image/png" true))
    (hQU : ∀ id patch, Q (.update id patch))
    (hQe : ∀ id patch, Q (.errorUpdate id patch)) :
    eventsOk Q (uploadGeneratedImage fs be base fp pr).final := by
  have h1 : eventsOk Q ⟨1, [], 0, none⟩ := by
    intro ev hev
    simp at hev
  have hInsP : ∀ k s, eventsOk Q s → eventsOk Q (insertOp be fp pr k s).1 :=
    fun k s => insertOp_eventsOk be fp pr hQi k s
  unfold uploadGeneratedImage
  by_cases hval : validateImage fs fp = true
  · rw [if_pos hval]
    dsimp only
    have hA : eventsOk Q (runRetry (insertOp be fp pr) 0 3 ⟨1, [], 0, none⟩).1 :=
      runRetry_state_inv _ (eventsOk Q) hInsP 0 3 _ h1
    rcases hIns : (runRetry (insertOp be fp pr) 0 3 ⟨1, [], 0, none⟩).2 with e | recordData
    · simp only [hIns]
      exact handleFailure_eventsOk hQe be _ none _ _ hA
    · simp only [hIns]
      rcases hRead : fs.readFile fp with msg | fileBuffer
      · simp only [hRead]
        exact handleFailure_eventsOk hQe be _ (some recordData.id) _ _ hA
      · simp only [hRead]
        by_cases hfn : lastComp '/' fp = ""
        · rw [if_pos hfn]
          exact handleFailure_eventsOk hQe be _ (some recordData.id) _ _ hA
        · rw [if_neg hfn]
          have hB : eventsOk Q (runRetry (uploadOp be
              ("generated-images/" ++ recordData.id ++ "_" ++ lastComp '/' fp)
              fileBuffer) 0 3 (runRetry (insertOp be fp pr) 0 3 ⟨1, [], 0, none⟩).1).1 :=
            runRetry_state_inv _ (eventsOk Q)
              (fun k s => uploadOp_eventsOk be _ fileBuffer (hQu _ fileBuffer) k s)
              0 3 _ hA
          rcases hUpl : (runRetry (uploadOp be
              ("generated-images/" ++ recordData.id ++ "_" ++ lastComp '/' fp)
              fileBuffer) 0 3 (runRetry (insertOp be fp pr) 0 3 ⟨1, [], 0, none⟩).1).2
            with e | u
          · simp only [hUpl]
            exact handleFailure_eventsOk hQe be _ (some recordData.id) _ _ hB
          · simp only [hUpl]
            have hC : eventsOk Q (runRetry (updateOp be recordData
                (publicUrlOf base ("generated-images/" ++ recordData.id ++ "_"
                  ++ lastComp '/' fp)) (be.clock 0)) 0 3
                (runRetry (uploadOp be
                  ("generated-images/" ++ recordData.id ++ "_" ++ lastComp '/' fp)
                  fileBuffer) 0 3
                  (runRetry (insertOp be fp pr) 0 3 ⟨1, [], 0, none⟩).1).1).1 :=
              runRetry_state_inv _ (eventsOk Q)
                (fun k s => updateOp_eventsOk be recordData _ _ hQU k s) 0 3 _ hB
            rcases hUpd : (runRetry (updateOp be recordData
                (publicUrlOf base ("generated-images/" ++ recordData.id ++ "_"
                  ++ lastComp '/' fp)) (be.clock 0)) 0 3
                (runRetry (uploadOp be
                  ("generated-images/" ++ recordData.id ++ "_" ++ lastComp '/' fp)
                  fileBuffer) 0 3
                  (runRetry (insertOp be fp pr) 0 3 ⟨1, [], 0, none⟩).1).1).2
              with e | updatedRecord
            · simp only [hUpd]
              exact handleFailure_eventsOk hQe be _ (some recordData.id) _ _ hC
            · simp only [hUpd]
              exact hC
  · rw [if_neg hval]
    intro ev hev
    simp [handleFailure] at hev

/-! ## C3: validation failure performs no network call -/

/-- C3: whenever validation fails, `uploadGeneratedImage` returns `null`,
issues no network call at all (empty event trace — in particular the
failure handler skips the error-status update since no record id was
assigned), and the backend creates no record. -/
theorem upload_validation_failure_no_calls (fs : FS) (be : Backend)
    (base fp pr : String) (h : validateImage fs fp = false) :
    (uploadGeneratedImage fs be base fp pr).result = none ∧
    (uploadGeneratedImage fs be base fp pr).final.events = [] ∧
    (uploadGeneratedImage fs be base fp pr).final.creations = 0 := by
  unfold uploadGeneratedImage
  rw [if_neg (by simp [h])]
  simp [handleFailure]

/-- C3 witness: a `.txt` file fails validation and the run is a no-op. -/
theorem upload_validation_failure_no_calls_witness :
    validateImage pngFS "dir/notes.txt" = false ∧
    ((uploadGeneratedImage pngFS okBE "http://sb" "dir/notes.txt" "p").result = none ∧
     (uploadGeneratedImage pngFS okBE "http://sb" "dir/notes.txt" "p").final.events = [] ∧
     (uploadGeneratedImage pngFS okBE "http://sb" "dir/notes.txt" "p").final.creations = 0) :=
  ⟨by decide,
   upload_validation_failure_no_calls pngFS okBE "http://sb" "dir/notes.txt" "p"
     (by decide)⟩

/-! ## C10: blob uploads are always tagged `image/png` with upsert -/

/-- C10: every storage upload the pipeline ever issues — regardless of the
file's extension or actual format — carries `contentType: 'image/png'` and
`upsert: true`; jpeg and gif files are stored labeled as `image/png`. -/
theorem upload_always_content_type_png (fs : FS) (be : Backend)
    (base fp pr bucket path : String) (bytes : List Nat) (ct : String) (up : Bool)
    (hmem : Event.storageUpload bucket path bytes ct up
      ∈ (uploadGeneratedImage fs be base fp pr).final.events) :
    ct = "image/png" ∧ up = true := by
  have h := upload_eventsOk
    (fun ev => match ev with
      | .storageUpload _ _ _ c u => c = "image/png" ∧ u = true
      | _ => True)
    fs be base fp pr
    (fun _ => trivial) (fun _ _ => ⟨rfl, rfl⟩) (fun _ _ => trivial)
    (fun _ _ => trivial)
  exact h _ hmem

/-- C10 witness: the happy-path run on a JPEG file uploads it labeled
`image/png`. -/
theorem upload_always_content_type_png_witness :
    "image/png" = "image/png" ∧ true = true :=
  upload_always_content_type_png jpegFS okBE "http://sb" "dir/photo.jpg" "p"
    "generated-images" "generated-images/R1_photo.jpg" [0xff, 0xd8, 0xff, 0xe0]
    "image/png" true (by decide)

/-! ## C1: the pipeline never raises and returns non-null exactly on the
fully successful path -/

/-- C1: `uploadGeneratedImage` is a total function of the backend and
filesystem behaviours (it never raises to its caller; every failure —
validation, record create, file read, blob upload, record update, or
recovery update — resolves to a `none` result), and its result is non-null
exactly when validation passes, the record insert succeeds within its retry
budget, the file read succeeds, a filename can be derived, and the blob
upload and the record update each succeed within their retry budgets. -/
theorem upload_null_policy (fs : FS) (be : Backend) (base fp pr : String) :
    (uploadGeneratedImage fs be base fp pr).result.isSome = true ↔
      (validateImage fs fp = true ∧ okWithin be.insertRes 3 ∧
       succeeds (fs.readFile fp) ∧ lastComp '/' fp ≠ "" ∧
       okWithin be.uploadRes 3 ∧ okWithin be.updateRes 3) := by
  unfold uploadGeneratedImage
  by_cases hval : validateImage fs fp = true
  · rw [if_pos hval]
    dsimp only
    rcases hIns : (runRetry (insertOp be fp pr) 0 3 ⟨1, [], 0, none⟩).2
      with e | recordData
    · simp only [hIns]
      constructor
      · intro h; simp at h
      · rintro ⟨-, hok, -⟩
        obtain ⟨v, hv⟩ := (insert_stage_iff be fp pr _).mpr hok
        rw [hIns] at hv
        cases hv
    · simp only [hIns]
      rcases hRead : fs.readFile fp with msg | fileBuffer
      · simp only [hRead]
        constructor
        · intro h; simp at h
        · rintro ⟨-, -, ⟨v, hv⟩, -⟩
          cases hv
      · simp only [hRead]
        by_cases hfn : lastComp '/' fp = ""
        · rw [if_pos hfn]
          constructor
          · intro h; simp at h
          · rintro ⟨-, -, -, hne, -⟩
            exact absurd hfn hne
        · rw [if_neg hfn]
          rcases hUpl : (runRetry (uploadOp be
              ("generated-images/" ++ recordData.id ++ "_" ++ lastComp '/' fp)
              fileBuffer) 0 3
              (runRetry (insertOp be fp pr) 0 3 ⟨1, [], 0, none⟩).1).2 with e | u
          · simp only [hUpl]
            constructor
            · intro h; simp at h
            · rintro ⟨-, -, -, -, hok, -⟩
              obtain ⟨v, hv⟩ := (upload_stage_iff be _ fileBuffer _).mpr hok
              rw [hUpl] at hv
              cases hv
          · simp only [hUpl]
            rcases hUpd : (runRetry (updateOp be recordData
                (publicUrlOf base ("generated-images/" ++ recordData.id ++ "_"
                  ++ lastComp '/' fp)) (be.clock 0)) 0 3
                (runRetry (uploadOp be
                  ("generated-images/" ++ recordData.id ++ "_" ++ lastComp '/' fp)
                  fileBuffer) 0 3
                  (runRetry (insertOp be fp pr) 0 3 ⟨1, [], 0, none⟩).1).1).2
              with e | updatedRecord
            · simp only [hUpd]
              constructor
              · intro h; simp at h
              · rintro ⟨-, -, -, -, -, hok⟩
                obtain ⟨v, hv⟩ := (update_stage_iff be recordData _ _ _).mpr hok
                rw [hUpd] at hv
                cases hv
            · simp only [hUpd]
              have hrec1 := (insert_stage_ok_state be fp pr ⟨1, [], 0, none⟩
                recordData rfl hIns).1
              have hrec2 : (runRetry (uploadOp be
                  ("generated-images/" ++ recordData.id ++ "_" ++ lastComp '/' fp)
                  fileBuffer) 0 3
                  (runRetry (insertOp be fp pr) 0 3 ⟨1, [], 0, none⟩).1).1.record
                  = some recordData := by
                rw [(upload_stage_state be _ fileBuffer _).1, hrec1]
              obtain ⟨⟨t, hv⟩, -⟩ := update_stage_ok_state be recordData _
                (be.clock 0) _ updatedRecord hrec2 hUpd
              constructor
              · intro _
                exact ⟨hval, (insert_stage_iff be fp pr _).mp ⟨recordData, hIns⟩,
                       ⟨fileBuffer, rfl⟩, hfn,
                       (upload_stage_iff be _ fileBuffer _).mp ⟨u, hUpl⟩,
                       (update_stage_iff be recordData _ _ _).mp
                         ⟨updatedRecord, hUpd⟩⟩
              · intro _
                rw [hv]
                rfl
  · rw [if_neg hval]
    constructor
    · intro h; simp at h
    · rintro ⟨hv, -⟩
      exact absurd hv hval

/-! ## Run-shape equations -/

lemma upload_success_run (fs : FS) (be : Backend) (base fp pr : String)
    (fileBuffer : List Nat) (recordData : StoredRecord)
    (updatedRecord : Option StoredRecord) (u : Unit)
    (hval : validateImage fs fp = true)
    (hIns : (runRetry (insertOp be fp pr) 0 3 ⟨1, [], 0, none⟩).2 = .ok recordData)
    (hRead : fs.readFile fp = .ok fileBuffer)
    (hfn : lastComp '/' fp ≠ "")
    (hUpl : (runRetry (uploadOp be
        ("generated-images/" ++ recordData.id ++ "_" ++ lastComp '/' fp)
        fileBuffer) 0 3
        (runRetry (insertOp be fp pr) 0 3 ⟨1, [], 0, none⟩).1).2 = .ok u)
    (hUpd : (runRetry (updateOp be recordData
        (publicUrlOf base ("generated-images/" ++ recordData.id ++ "_"
          ++ lastComp '/' fp)) (be.clock 0)) 0 3
        (runRetry (uploadOp be
          ("generated-images/" ++ recordData.id ++ "_" ++ lastComp '/' fp)
          fileBuffer) 0 3
          (runRetry (insertOp be fp pr) 0 3 ⟨1, [], 0, none⟩).1).1).2
      = .ok updatedRecord) :
    uploadGeneratedImage fs be base fp pr
      = ⟨updatedRecord,
         { (runRetry (updateOp be recordData
             (publicUrlOf base ("generated-images/" ++ recordData.id ++ "_"
               ++ lastComp '/' fp)) (be.clock 0)) 0 3
             (runRetry (uploadOp be
               ("generated-images/" ++ recordData.id ++ "_" ++ lastComp '/' fp)
               fileBuffer) 0 3
               (runRetry (insertOp be fp pr) 0 3 ⟨1, [], 0, none⟩).1).1).1 with
           tick := (runRetry (updateOp be recordData
             (publicUrlOf base ("generated-images/" ++ recordData.id ++ "_"
               ++ lastComp '/' fp)) (be.clock 0)) 0 3
             (runRetry (uploadOp be
               ("generated-images/" ++ recordData.id ++ "_" ++ lastComp '/' fp)
               fileBuffer) 0 3
               (runRetry (insertOp be fp pr) 0 3 ⟨1, [], 0, none⟩).1).1).1.tick + 1 }⟩ := by
  unfold uploadGeneratedImage
  rw [if_pos hval]
  dsimp only
  simp only [hIns, hRead]
  rw [if_neg hfn]
  simp only [hUpl, hUpd]

lemma upload_uploadfail_run (fs : FS) (be : Backend) (base fp pr : String)
    (fileBuffer : List Nat) (recordData : StoredRecord) (e : Option SupabaseError)
    (hval : validateImage fs fp = true)
    (hIns : (runRetry (insertOp be fp pr) 0 3 ⟨1, [], 0, none⟩).2 = .ok recordData)
    (hRead : fs.readFile fp = .ok fileBuffer)
    (hfn : lastComp '/' fp ≠ "")
    (hUpl : (runRetry (uploadOp be
        ("generated-images/" ++ recordData.id ++ "_" ++ lastComp '/' fp)
        fileBuffer) 0 3
        (runRetry (insertOp be fp pr) 0 3 ⟨1, [], 0, none⟩).1).2 = .error e) :
    uploadGeneratedImage fs be base fp pr
      = ⟨none, handleFailure be (liftErr e) (some recordData.id) (be.clock 0)
          (runRetry (uploadOp be
            ("generated-images/" ++ recordData.id ++ "_" ++ lastComp '/' fp)
            fileBuffer) 0 3
            (runRetry (insertOp be fp pr) 0 3 ⟨1, [], 0, none⟩).1).1⟩ := by
  unfold uploadGeneratedImage
  rw [if_pos hval]
  dsimp only
  simp only [hIns, hRead]
  rw [if_neg hfn]
  simp only [hUpl]

/-! ## Positive event lemmas for the success path -/

lemma upload_stage_ok_event (be : Backend) (path : String) (bytes : List Nat)
    (s : PState) (u : Unit)
    (h : (runRetry (uploadOp be path bytes) 0 3 s).2 = .ok u) :
    Event.storageUpload "generated-images" path bytes "image/png" true
      ∈ (runRetry (uploadOp be path bytes) 0 3 s).1.events := by
  refine runRetry_ok_elim (uploadOp be path bytes) (fun _ => True)
    (fun _ st => Event.storageUpload "generated-images" path bytes "image/png" true
      ∈ st.events)
    (fun _ _ _ _ _ => trivial) ?_ 0 3 s u trivial h
  intro k s2 w _ _
  show Event.storageUpload "generated-images" path bytes "image/png" true
    ∈ (uploadOp be path bytes k s2).1.events
  rw [uploadOp_events_eq]
  exact List.mem_append_right _ (List.mem_singleton.mpr rfl)

lemma update_stage_mem_events (be : Backend) (rd : StoredRecord) (pu : String)
    (st : Nat) (s : PState) (ev : Event) (h : ev ∈ s.events) :
    ev ∈ (runRetry (updateOp be rd pu st) 0 3 s).1.events :=
  runRetry_state_inv (updateOp be rd pu st) (fun st2 => ev ∈ st2.events)
    (fun k s2 h2 =>
      show ev ∈ (updateOp be rd pu st k s2).1.events by
        rw [updateOp_events_eq]
        exact List.mem_append_left _ h2) 0 3 s h

lemma publicUrlOf_ne_empty (base path : String) : publicUrlOf base path ≠ "" := by
  intro h
  have hlen := congrArg String.length h
  rw [publicUrlOf] at hlen
  rw [String.length_append, String.length_append] at hlen
  have h43 : ("/storage/v1/object/public/generated-images/" : String).length = 43 := by
    decide
  rw [h43] at hlen
  simp at hlen

/-! ## C4: the fully successful path -/

/-- C4 counterexample: on a fully successful concrete run (record id `R1`,
filename `img.png`), no blob is uploaded to the storage key
`<id>_<filename>` (= `R1_img.png`) as the claim states; the single storage
upload goes to `generated-images/R1_img.png` — the source prefixes the key
with a folder that repeats the bucket name. -/
theorem upload_storage_key_cex :
    ((uploadGeneratedImage pngFS okBE "http://sb" "dir/img.png" "a sunset").result.map
        StoredRecord.id) = some "R1" ∧
    Event.storageUpload "generated-images" "R1_img.png"
        [0x89, 0x50, 0x4e, 0x47, 1, 2, 3] "image/png" true
      ∉ (uploadGeneratedImage pngFS okBE "http://sb" "dir/img.png" "a sunset").final.events ∧
    Event.storageUpload "generated-images" "generated-images/R1_img.png"
        [0x89, 0x50, 0x4e, 0x47, 1, 2, 3] "image/png" true
      ∈ (uploadGeneratedImage pngFS okBE "http://sb" "dir/img.png" "a sunset").final.events := by
  decide

/-- C4 amended: whenever validation passes, the file read succeeds, a
filename is derivable, and each backend operation succeeds within its retry
budget: exactly one record is created, every record-insert carries status
`uploading` and empty `storage_path`, the file bytes are uploaded to the
storage key `generated-images/<id>_<filename>` (bucket-folder prefix
included), and the record returned (also persisted) has status `completed`,
a non-empty `storage_path` equal to the resolved public locator, and no
`error_message`. -/
theorem upload_success_path (fs : FS) (be : Backend) (base fp pr : String)
    (fileBuffer : List Nat)
    (hval : validateImage fs fp = true)
    (hRead : fs.readFile fp = .ok fileBuffer)
    (hfn : lastComp '/' fp ≠ "")
    (hIok : okWithin be.insertRes 3)
    (hUok : okWithin be.uploadRes 3)
    (hVok : okWithin be.updateRes 3) :
    ∃ r : StoredRecord,
      (uploadGeneratedImage fs be base fp pr).result = some r ∧
      (uploadGeneratedImage fs be base fp pr).final.record = some r ∧
      r.status = "completed" ∧
      r.error_message = none ∧
      r.storage_path
        = publicUrlOf base ("generated-images/" ++ r.id ++ "_" ++ lastComp '/' fp) ∧
      r.storage_path ≠ "" ∧
      (uploadGeneratedImage fs be base fp pr).final.creations = 1 ∧
      Event.storageUpload "generated-images"
        ("generated-images/" ++ r.id ++ "_" ++ lastComp '/' fp) fileBuffer
        "image/png" true ∈ (uploadGeneratedImage fs be base fp pr).final.events ∧
      (∀ p, Event.insert p ∈ (uploadGeneratedImage fs be base fp pr).final.events →
        p.status = "uploading" ∧ p.storage_path = "") := by
  obtain ⟨recordData, hIns⟩ := (insert_stage_iff be fp pr ⟨1, [], 0, none⟩).mpr hIok
  obtain ⟨u, hUpl⟩ := (upload_stage_iff be
    ("generated-images/" ++ recordData.id ++ "_" ++ lastComp '/' fp) fileBuffer
    (runRetry (insertOp be fp pr) 0 3 ⟨1, [], 0, none⟩).1).mpr hUok
  obtain ⟨updatedRecord, hUpd⟩ := (update_stage_iff be recordData
    (publicUrlOf base ("generated-images/" ++ recordData.id ++ "_"
      ++ lastComp '/' fp))
    (be.clock 0)
    (runRetry (uploadOp be
      ("generated-images/" ++ recordData.id ++ "_" ++ lastComp '/' fp)
      fileBuffer) 0 3
      (runRetry (insertOp be fp pr) 0 3 ⟨1, [], 0, none⟩).1).1).mpr hVok
  have heq := upload_success_run fs be base fp pr fileBuffer recordData
    updatedRecord u hval hIns hRead hfn hUpl hUpd
  obtain ⟨hrecI, hcreI, id, t0, hmk⟩ :=
    insert_stage_ok_state be fp pr ⟨1, [], 0, none⟩ recordData rfl hIns
  have hrecU : (runRetry (uploadOp be
      ("generated-images/" ++ recordData.id ++ "_" ++ lastComp '/' fp)
      fileBuffer) 0 3
      (runRetry (insertOp be fp pr) 0 3 ⟨1, [], 0, none⟩).1).1.record
      = some recordData := by
    rw [(upload_stage_state be _ fileBuffer _).1, hrecI]
  have hcreU : (runRetry (uploadOp be
      ("generated-images/" ++ recordData.id ++ "_" ++ lastComp '/' fp)
      fileBuffer) 0 3
      (runRetry (insertOp be fp pr) 0 3 ⟨1, [], 0, none⟩).1).1.creations = 1 := by
    rw [(upload_stage_state be _ fileBuffer _).2, hcreI]
  obtain ⟨⟨t, hv⟩, hrecV⟩ := update_stage_ok_state be recordData _
    (be.clock 0) _ updatedRecord hrecU hUpd
  have hinsQ := upload_eventsOk
    (fun ev => ∀ p, ev = .insert p → p.status = "uploading" ∧ p.storage_path = "")
    fs be base fp pr
    (fun now p hp => by cases hp; exact ⟨rfl, rfl⟩)
    (fun _ _ p hp => by simp at hp)
    (fun _ _ p hp => by simp at hp)
    (fun _ _ p hp => by simp at hp)
  refine ⟨applySuccessPatch (successPatch recordData
      (publicUrlOf base ("generated-images/" ++ recordData.id ++ "_"
        ++ lastComp '/' fp)) (be.clock t) (be.clock (t + 1)) (be.clock 0))
      recordData, ?_, ?_, ?_, ?_, ?_, ?_, ?_, ?_, ?_⟩
  · rw [heq]
    exact hv
  · rw [heq]
    exact hrecV.trans hv
  · rfl
  · show recordData.error_message = none
    rw [hmk]
    rfl
  · rfl
  · exact publicUrlOf_ne_empty base _
  · rw [heq]
    exact (update_stage_creations be recordData _ (be.clock 0) _).trans hcreU
  · rw [heq]
    exact update_stage_mem_events be recordData _ (be.clock 0) _ _
      (upload_stage_ok_event be _ fileBuffer _ u hUpl)
  · intro p hp
    exact hinsQ (Event.insert p) hp p rfl

/-- C4 amended witness: the concrete happy-path run. -/
theorem upload_success_path_witness :
    ∃ r : StoredRecord,
      (uploadGeneratedImage pngFS okBE "http://sb" "dir/img.png" "a sunset").result
        = some r ∧
      (uploadGeneratedImage pngFS okBE "http://sb" "dir/img.png" "a sunset").final.record
        = some r ∧
      r.status = "completed" ∧
      r.error_message = none ∧
      r.storage_path = publicUrlOf "http://sb"
        ("generated-images/" ++ r.id ++ "_" ++ lastComp '/' "dir/img.png") ∧
      r.storage_path ≠ "" ∧
      (uploadGeneratedImage pngFS okBE "http://sb" "dir/img.png" "a sunset").final.creations
        = 1 ∧
      Event.storageUpload "generated-images"
        ("generated-images/" ++ r.id ++ "_" ++ lastComp '/' "dir/img.png")
        [0x89, 0x50, 0x4e, 0x47, 1, 2, 3] "image/png" true
        ∈ (uploadGeneratedImage pngFS okBE "http://sb" "dir/img.png" "a sunset").final.events ∧
      (∀ p, Event.insert p
          ∈ (uploadGeneratedImage pngFS okBE "http://sb" "dir/img.png" "a sunset").final.events →
        p.status = "uploading" ∧ p.storage_path = "") :=
  upload_success_path pngFS okBE "http://sb" "dir/img.png" "a sunset"
    [0x89, 0x50, 0x4e, 0x47, 1, 2, 3] (by decide) rfl (by decide)
    ⟨0, by omega, "R1", rfl⟩ ⟨0, by omega, (), rfl⟩ ⟨0, by omega, (), rfl⟩

/-! ## C5: blob upload exhausts its retries -/

lemma handleFailure_record_ok (be : Backend) (err : PipeError) (rid : String)
    (startTime : Nat) (s : PState) (rec1 : StoredRecord)
    (hrec : s.record = some rec1) (hok : okWithin be.errorUpdateRes 3) :
    ∃ t, (handleFailure be err (some rid) startTime s).record
      = some (applyErrorPatch
          (errorPatch err (be.clock t) (be.clock s.tick - startTime)) rec1) := by
  unfold handleFailure
  exact errorUpdate_stage_ok_state be rid err (be.clock s.tick - startTime)
    { s with tick := s.tick + 1 } rec1 hrec hok

/-- C5 counterexample: with record creation succeeding, every blob-upload
attempt failing, and the error-status update itself failing on every
attempt, the run returns `null` but the tracking record ends in status
`uploading` — not `error` as the claim states unconditionally. -/
theorem upload_blob_failure_cex :
    (uploadGeneratedImage pngFS recoveryFailBE "http://sb" "dir/img.png" "a sunset").result
      = none ∧
    ((uploadGeneratedImage pngFS recoveryFailBE "http://sb" "dir/img.png" "a sunset").final.record.map
        (fun r => r.status)) = some "uploading" := by
  decide

/-- C5 amended: whenever record creation succeeds but the blob upload fails
on all retry attempts, `uploadGeneratedImage` returns `null`; and provided
the error-status update itself succeeds within its own retry budget, the
tracking record ends with status `error`, an `error_message` present, and
`storage_path` still empty (the error-path update does not touch
`storage_path`).  If the recovery update also exhausts its retries, the
record instead remains in status `uploading`. -/
theorem upload_blob_failure_error_record (fs : FS) (be : Backend)
    (base fp pr : String) (fileBuffer : List Nat)
    (hval : validateImage fs fp = true)
    (hRead : fs.readFile fp = .ok fileBuffer)
    (hfn : lastComp '/' fp ≠ "")
    (hIok : okWithin be.insertRes 3)
    (hUfail : ∀ k, k < 3 → ∃ e, be.uploadRes k = .error e)
    (hEok : okWithin be.errorUpdateRes 3) :
    (uploadGeneratedImage fs be base fp pr).result = none ∧
    ∃ r, (uploadGeneratedImage fs be base fp pr).final.record = some r ∧
      r.status = "error" ∧ r.error_message.isSome = true ∧
      r.storage_path = "" := by
  obtain ⟨recordData, hIns⟩ := (insert_stage_iff be fp pr ⟨1, [], 0, none⟩).mpr hIok
  obtain ⟨hrecI, hcreI, id, t0, hmk⟩ :=
    insert_stage_ok_state be fp pr ⟨1, [], 0, none⟩ recordData rfl hIns
  have hnot : ¬ succeeds (runRetry (uploadOp be
      ("generated-images/" ++ recordData.id ++ "_" ++ lastComp '/' fp)
      fileBuffer) 0 3
      (runRetry (insertOp be fp pr) 0 3 ⟨1, [], 0, none⟩).1).2 := by
    rw [upload_stage_iff]
    rintro ⟨k, hk, v, hv⟩
    obtain ⟨e, he⟩ := hUfail k hk
    rw [he] at hv
    cases hv
  rcases hUplR : (runRetry (uploadOp be
      ("generated-images/" ++ recordData.id ++ "_" ++ lastComp '/' fp)
      fileBuffer) 0 3
      (runRetry (insertOp be fp pr) 0 3 ⟨1, [], 0, none⟩).1).2 with e | u
  · have heq := upload_uploadfail_run fs be base fp pr fileBuffer recordData e
      hval hIns hRead hfn hUplR
    have hrecU : (runRetry (uploadOp be
        ("generated-images/" ++ recordData.id ++ "_" ++ lastComp '/' fp)
        fileBuffer) 0 3
        (runRetry (insertOp be fp pr) 0 3 ⟨1, [], 0, none⟩).1).1.record
        = some recordData := by
      rw [(upload_stage_state be _ fileBuffer _).1, hrecI]
    obtain ⟨t, hrec⟩ := handleFailure_record_ok be (liftErr e) recordData.id
      (be.clock 0) _ recordData hrecU hEok
    constructor
    · rw [heq]
    · refine ⟨applyErrorPatch (errorPatch (liftErr e) (be.clock t)
        (be.clock (runRetry (uploadOp be
          ("generated-images/" ++ recordData.id ++ "_" ++ lastComp '/' fp)
          fileBuffer) 0 3
          (runRetry (insertOp be fp pr) 0 3 ⟨1, [], 0, none⟩).1).1.tick
          - be.clock 0)) recordData, ?_, rfl, rfl, ?_⟩
      · rw [heq]
        exact hrec
      · show recordData.storage_path = ""
        rw [hmk]
        rfl
  · exact absurd ⟨u, hUplR⟩ hnot

/-- C5 amended witness: the concrete run where the upload always fails and
the recovery update succeeds. -/
theorem upload_blob_failure_error_record_witness :
    (uploadGeneratedImage pngFS uploadFailBE "http://sb" "dir/img.png" "a sunset").result
      = none ∧
    ∃ r, (uploadGeneratedImage pngFS uploadFailBE "http://sb" "dir/img.png" "a sunset").final.record
        = some r ∧
      r.status = "error" ∧ r.error_message.isSome = true ∧
      r.storage_path = "" :=
  upload_blob_failure_error_record pngFS uploadFailBE "http://sb" "dir/img.png"
    "a sunset" [0x89, 0x50, 0x4e, 0x47, 1, 2, 3] (by decide) rfl (by decide)
    ⟨0, by omega, "R1", rfl⟩
    (fun k _ => ⟨⟨"StorageError", "upload refused"⟩, rfl⟩)
    ⟨0, by omega, (), rfl⟩

/-! ## C9: metadata across the record's lifecycle -/

/-- C9 counterexample: on the concrete run that ends in the terminal state
`error`, the creation metadata keys (`uploadStarted`, `originalFilename`,
`attempts`) do NOT survive: the error-path update replaces the metadata
object wholesale, so the terminal record has no `uploadStarted` key. -/
theorem metadata_not_preserved_cex :
    ((uploadGeneratedImage pngFS uploadFailBE "http://sb" "dir/img.png" "a sunset").final.record.map
        (fun r => r.status)) = some "error" ∧
    ((uploadGeneratedImage pngFS uploadFailBE "http://sb" "dir/img.png" "a sunset").final.record.map
        (fun r => r.metadata.lookup "uploadStarted")) = some none := by
  decide

/-- C9 amended: only the success-path update preserves the previously
written metadata keys (the terminal `completed` record's metadata is the
creation metadata — `uploadStarted`, `originalFilename`, `attempts` —
extended with `uploadCompleted` and `processingTime`); the error-path
update replaces the metadata wholesale (exactly `errorTimestamp`,
`processingTime`, `errorDetails` — creation keys do not survive).  Every
terminal record carries a `metadata.processingTime` measured from the
pipeline start (the clock value at tick 0). -/
theorem metadata_lifecycle (fs : FS) (be : Backend) (base fp pr : String)
    (fileBuffer : List Nat)
    (hval : validateImage fs fp = true)
    (hRead : fs.readFile fp = .ok fileBuffer)
    (hfn : lastComp '/' fp ≠ "")
    (hIok : okWithin be.insertRes 3) :
    (okWithin be.uploadRes 3 → okWithin be.updateRes 3 →
      ∃ r t0 t,
        (uploadGeneratedImage fs be base fp pr).final.record = some r ∧
        r.status = "completed" ∧
        r.metadata = creationMeta fp t0 ++
          [("uploadCompleted", MetaVal.timeStr (be.clock t)),
           ("processingTime", MetaVal.num (be.clock (t + 1) - be.clock 0))]) ∧
    ((∀ k, k < 3 → ∃ e, be.uploadRes k = .error e) → okWithin be.errorUpdateRes 3 →
      ∃ r t tc dv,
        (uploadGeneratedImage fs be base fp pr).final.record = some r ∧
        r.status = "error" ∧
        r.metadata = [("errorTimestamp", MetaVal.timeStr (be.clock t)),
           ("processingTime", MetaVal.num (be.clock tc - be.clock 0)),
           ("errorDetails", dv)]) := by
  obtain ⟨recordData, hIns⟩ := (insert_stage_iff be fp pr ⟨1, [], 0, none⟩).mpr hIok
  obtain ⟨hrecI, hcreI, id, t0, hmk⟩ :=
    insert_stage_ok_state be fp pr ⟨1, [], 0, none⟩ recordData rfl hIns
  have hrecU : (runRetry (uploadOp be
      ("generated-images/" ++ recordData.id ++ "_" ++ lastComp '/' fp)
      fileBuffer) 0 3
      (runRetry (insertOp be fp pr) 0 3 ⟨1, [], 0, none⟩).1).1.record
      = some recordData := by
    rw [(upload_stage_state be _ fileBuffer _).1, hrecI]
  constructor
  · intro hUok hVok
    obtain ⟨u, hUpl⟩ := (upload_stage_iff be
      ("generated-images/" ++ recordData.id ++ "_" ++ lastComp '/' fp) fileBuffer
      (runRetry (insertOp be fp pr) 0 3 ⟨1, [], 0, none⟩).1).mpr hUok
    obtain ⟨updatedRecord, hUpd⟩ := (update_stage_iff be recordData
      (publicUrlOf base ("generated-images/" ++ recordData.id ++ "_"
        ++ lastComp '/' fp))
      (be.clock 0)
      (runRetry (uploadOp be
        ("generated-images/" ++ recordData.id ++ "_" ++ lastComp '/' fp)
        fileBuffer) 0 3
        (runRetry (insertOp be fp pr) 0 3 ⟨1, [], 0, none⟩).1).1).mpr hVok
    have heq := upload_success_run fs be base fp pr fileBuffer recordData
      updatedRecord u hval hIns hRead hfn hUpl hUpd
    obtain ⟨⟨t, hv⟩, hrecV⟩ := update_stage_ok_state be recordData _
      (be.clock 0) _ updatedRecord hrecU hUpd
    refine ⟨applySuccessPatch (successPatch recordData
        (publicUrlOf base ("generated-images/" ++ recordData.id ++ "_"
          ++ lastComp '/' fp)) (be.clock t) (be.clock (t + 1)) (be.clock 0))
        recordData, t0, t, ?_, rfl, ?_⟩
    · rw [heq]
      exact hrecV.trans hv
    · show recordData.metadata ++
        [("uploadCompleted", MetaVal.timeStr (be.clock t)),
         ("processingTime", MetaVal.num (be.clock (t + 1) - be.clock 0))]
        = creationMeta fp t0 ++
        [("uploadCompleted", MetaVal.timeStr (be.clock t)),
         ("processingTime", MetaVal.num (be.clock (t + 1) - be.clock 0))]
      rw [hmk]
      rfl
  · intro hUfail hEok
    have hnot : ¬ succeeds (runRetry (uploadOp be
        ("generated-images/" ++ recordData.id ++ "_" ++ lastComp '/' fp)
        fileBuffer) 0 3
        (runRetry (insertOp be fp pr) 0 3 ⟨1, [], 0, none⟩).1).2 := by
      rw [upload_stage_iff]
      rintro ⟨k, hk, v, hv⟩
      obtain ⟨e, he⟩ := hUfail k hk
      rw [he] at hv
      cases hv
    rcases hUplR : (runRetry (uploadOp be
        ("generated-images/" ++ recordData.id ++ "_" ++ lastComp '/' fp)
        fileBuffer) 0 3
        (runRetry (insertOp be fp pr) 0 3 ⟨1, [], 0, none⟩).1).2 with e | u
    · have heq := upload_uploadfail_run fs be base fp pr fileBuffer recordData e
        hval hIns hRead hfn hUplR
      obtain ⟨t, hrec⟩ := handleFailure_record_ok be (liftErr e) recordData.id
        (be.clock 0) _ recordData hrecU hEok
      refine ⟨applyErrorPatch (errorPatch (liftErr e) (be.clock t)
          (be.clock (runRetry (uploadOp be
            ("generated-images/" ++ recordData.id ++ "_" ++ lastComp '/' fp)
            fileBuffer) 0 3
            (runRetry (insertOp be fp pr) 0 3 ⟨1, [], 0, none⟩).1).1.tick
            - be.clock 0)) recordData,
        t,
        (runRetry (uploadOp be
          ("generated-images/" ++ recordData.id ++ "_" ++ lastComp '/' fp)
          fileBuffer) 0 3
          (runRetry (insertOp be fp pr) 0 3 ⟨1, [], 0, none⟩).1).1.tick,
        errDetailsVal (liftErr e), ?_, rfl, rfl⟩
      rw [heq]
      exact hrec
    · exact absurd ⟨u, hUplR⟩ hnot

/-- C9 amended witness: the concrete happy-path run accumulates metadata;
the concrete upload-failure run ends with the replaced error metadata. -/
theorem metadata_lifecycle_witness :
    (∃ r t0 t,
      (uploadGeneratedImage pngFS okBE "http://sb" "dir/img.png" "a sunset").final.record
        = some r ∧
      r.status = "completed" ∧
      r.metadata = creationMeta "dir/img.png" t0 ++
        [("uploadCompleted", MetaVal.timeStr (okBE.clock t)),
         ("processingTime", MetaVal.num (okBE.clock (t + 1) - okBE.clock 0))]) ∧
    (∃ r t tc dv,
      (uploadGeneratedImage pngFS uploadFailBE "http://sb" "dir/img.png" "a sunset").final.record
        = some r ∧
      r.status = "error" ∧
      r.metadata = [("errorTimestamp", MetaVal.timeStr (uploadFailBE.clock t)),
         ("processingTime", MetaVal.num (uploadFailBE.clock tc - uploadFailBE.clock 0)),
         ("errorDetails", dv)]) :=
  ⟨(metadata_lifecycle pngFS okBE "http://sb" "dir/img.png" "a sunset"
      [0x89, 0x50, 0x4e, 0x47, 1, 2, 3] (by decide) rfl (by decide)
      ⟨0, by omega, "R1", rfl⟩).1
    ⟨0, by omega, (), rfl⟩ ⟨0, by omega, (), rfl⟩,
   (metadata_lifecycle pngFS uploadFailBE "http://sb" "dir/img.png" "a sunset"
      [0x89, 0x50, 0x4e, 0x47, 1, 2, 3] (by decide) rfl (by decide)
      ⟨0, by omega, "R1", rfl⟩).2
    (fun k _ => ⟨⟨"StorageError", "upload refused"⟩, rfl⟩)
    ⟨0, by omega, (), rfl⟩⟩

/-! ### Basic sanity examples for the retry executor -/

example : (retryOperation (fun _ => (.ok 7 : Except String Nat)) 3 1000).attempts = 1 := by
  decide

example :
    (retryOperation (fun _ => (.error "boom" : Except String Nat)) 3 1000).totalWait
      = 3000 := by
  decide

example : validateImage
    { existsSync := fun _ => true,
      statSize := fun _ => .ok 2048,
      read4 := fun _ => .ok [0x89, 0x50, 0x4e, 0x47],
      readFile := fun _ => .ok [] } "dir/a.png" = true := by decide

example : validateImage
    { existsSync := fun _ => false,
      statSize := fun _ => .ok 2048,
      read4 := fun _ => .ok [0x89, 0x50, 0x4e, 0x47],
      readFile := fun _ => .ok [] } "dir/a.png" = false := by decide

end Upload
